import Mathlib

/-
  Verification development for the Flatslab2 flat-slab design calculator.

  The Python engine (calc_ddm.py, calc_efm.py, app.py, app_calc.py) is shallowly
  embedded over the rationals.  Machine floats are modelled by exact rational
  arithmetic; the library square root (math.sqrt) is modelled by an explicit
  oracle parameter rt of type Rat to Rat, passed to every function that calls it,
  so that all definitions stay computable.  Python division is modelled by
  rational division (total, with x / 0 = 0); every claim settled here is
  either independent of the division-by-zero convention or guarded exactly
  as the source is.
-/

namespace Flatslab

/-- cm to m, ksc to MPa, gravity constants, mirroring the constants of the source. -/
def kscToMPa : ℚ := 980665 / 10000000

def gAcc : ℚ := 980665 / 100000

/-- calc_ddm.py, linear_interp: clamped linear interpolation; outside the
interval the edge value is used. -/
def linear_interp (x x1 y1 x2 y2 : ℚ) : ℚ :=
  if x ≤ x1 then y1
  else if x ≥ x2 then y2
  else y1 + (x - x1) * (y2 - y1) / (x2 - x1)

/-- calc_ddm.py, get_col_strip_percent: percentage of a moment component that
goes to the column strip, ACI 318 Section 8.10.5.  The location argument is a
string, as in the source; any unrecognized label reaches the final fallback. -/
def get_col_strip_percent (location : String) (l2_l1 alpha_f1 beta_t : ℚ) : ℚ :=
  if location = ("neg_int") then
    let pct_alpha0 : ℚ := 75
    let pct_alpha1 := linear_interp l2_l1 (1/2) 90 2 45
    (linear_interp alpha_f1 0 pct_alpha0 1 pct_alpha1) / 100
  else if location = ("neg_ext") then
    let pct_beta0 : ℚ := 100
    let val_alpha0 : ℚ := 75
    let val_alpha1 := linear_interp l2_l1 (1/2) 90 2 45
    let pct_beta25 := linear_interp alpha_f1 0 val_alpha0 1 val_alpha1
    (linear_interp beta_t 0 pct_beta0 (5/2) pct_beta25) / 100
  else if location = ("pos") then
    let pct_alpha0 : ℚ := 60
    let pct_alpha1 := linear_interp l2_l1 (1/2) 90 2 45
    (linear_interp alpha_f1 0 pct_alpha0 1 pct_alpha1) / 100
  else
    3/4

/-- Longitudinal moment coefficient triple of ACI 318 Table 8.10.4.2, together
with the descriptive label the source attaches. -/
structure LongCoeffs where
  neg_ext : ℚ
  pos : ℚ
  neg_int : ℚ
  desc : String
deriving DecidableEq

/-- calc_ddm.py, get_longitudinal_coeffs. -/
def get_longitudinal_coeffs (span_type : String) (edge_beam_exists : Bool)
    (is_restrained : Bool) : LongCoeffs :=
  if span_type = ("interior") then
    ⟨13/20, 7/20, 13/20, ("Interior Span")⟩
  else if is_restrained then
    ⟨13/20, 7/20, 13/20, ("End Span (Fully Restrained)")⟩
  else if edge_beam_exists then
    ⟨3/10, 1/2, 7/10, ("End Span (With Edge Beam)")⟩
  else
    ⟨13/50, 13/25, 7/10, ("End Span (Flat Plate / No Beam)")⟩

/-- calc_ddm.py, solve_As: required steel area (cm2) from the design moment by
the closed-form quadratic.  The parameter rt models math.sqrt; it is only
consulted on the nonnegative discriminant branch.  A negative discriminant
returns the sentinel 9999.0, exactly as the source does. -/
def solve_As (rt : ℚ → ℚ) (Mu_kNm d_m fy fc b_m phi : ℚ) : ℚ :=
  if Mu_kNm ≤ 0 then 0
  else
    let Mu := Mu_kNm * 1000000
    let d := d_m * 1000
    let b := b_m * 1000
    let a := phi * fy^2 / (17/10 * fc * b)
    let bq := -(phi * fy * d)
    let disc := bq^2 - 4 * a * Mu
    if disc < 0 then 9999
    else (-bq - rt disc) / (2 * a) / 100

/-- The discriminant of the solve_As quadratic, exposed for the claims about
numeric domain failures. -/
def solveAsDisc (Mu_kNm d_m fy fc b_m phi : ℚ) : ℚ :=
  (-(phi * fy * (d_m * 1000)))^2
    - 4 * (phi * fy^2 / (17/10 * fc * (b_m * 1000))) * (Mu_kNm * 1000000)

/-- The three strip locations of the DDM moment set. -/
inductive Loc where
  | negExt
  | posM
  | negInt
deriving DecidableEq

/-- The string key the pipeline passes to get_col_strip_percent for each
location. -/
def locKey : Loc → String
  | Loc.negExt => ("neg_ext")
  | Loc.posM => ("pos")
  | Loc.negInt => ("neg_int")

/-- Inputs of calculate_ddm, after the .get extraction at its top: spans and
slab depth in m, column sizes in cm, materials in ksc, loads in kg per m2. -/
structure DDMInput where
  L1_l : ℚ
  L1_r : ℚ
  L2 : ℚ
  h_slab : ℚ
  c1_cm : ℚ
  c2_cm : ℚ
  has_beam : Bool
  fc : ℚ
  fy : ℚ
  DL : ℚ
  LL : ℚ
  w_total : ℚ
deriving DecidableEq

def fcMPa (i : DDMInput) : ℚ := i.fc * kscToMPa

def fyMPa (i : DDMInput) : ℚ := i.fy * kscToMPa

/-- Span type logic: an end span when either adjacent span is (near) absent. -/
def spanType (i : DDMInput) : String :=
  if i.L1_l < 1/10 ∨ i.L1_r < 1/10 then ("end") else ("interior")

def L1v (i : DDMInput) : ℚ := max i.L1_l i.L1_r

def c1v (i : DDMInput) : ℚ := i.c1_cm / 100

def c2v (i : DDMInput) : ℚ := i.c2_cm / 100

/-- Simple input mode: only w_total provided. -/
def simpleLoadMode (i : DDMInput) : Bool :=
  if i.DL = 0 ∧ i.LL = 0 ∧ 0 < i.w_total then true else false

/-- Dead load including slab self weight (kg per m2). -/
def totalDL (i : DDMInput) : ℚ := i.DL + i.h_slab * 2400

/-- Factored load in kN per m2, by input mode: either the given total, or
1.2 D + 1.6 L, converted kgf to kN. -/
def wuKn (i : DDMInput) : ℚ :=
  if simpleLoadMode i then i.w_total * gAcc / 1000
  else (12/10 * totalDL i + 16/10 * i.LL) * gAcc / 1000

def msgHighAspect : String := "Span proportion above 2.0. DDM not applicable."

def msgHighLive : String := "Live Load above 2 times Dead Load. DDM Violation."

/-- The warnings list built by calculate_ddm, in source order: the span
proportion check, then the live over dead check (the latter only in the
separated load mode). -/
def ddmWarnings (i : DDMInput) : List String :=
  (if 0 < min (L1v i) i.L2 ∧ 2 < max (L1v i) i.L2 / min (L1v i) i.L2
    then [msgHighAspect] else [])
  ++ (if simpleLoadMode i then []
      else if 2 * totalDL i < i.LL then [msgHighLive] else [])

/-- Clear span with the ACI floor: max(L1 - c1, 0.65 L1). -/
def LnV (i : DDMInput) : ℚ := max (L1v i - c1v i) (13/20 * L1v i)

def hMinReq (i : DDMInput) : ℚ :=
  if spanType i = ("interior") then LnV i / 33
  else if i.has_beam then LnV i / 33 else LnV i / 30

def statusH (i : DDMInput) : String :=
  if hMinReq i ≤ i.h_slab then ("OK") else ("FAIL")

/-- Effective depth: h - cover - bar/2 = h - 0.026 m. -/
def dEff (i : DDMInput) : ℚ := i.h_slab - 13/500

def widthCS (i : DDMInput) : ℚ := min (min (L1v i) i.L2 * (1/4) * 2) i.L2

def widthMS (i : DDMInput) : ℚ := i.L2 - widthCS i

/-- Total static moment M0 = wu L2 Ln^2 / 8 (kN m). -/
def M0v (i : DDMInput) : ℚ := wuKn i * i.L2 * (LnV i)^2 / 8

def coeffsV (i : DDMInput) : LongCoeffs :=
  get_longitudinal_coeffs (spanType i) i.has_beam false

def coeffOf (c : LongCoeffs) : Loc → ℚ
  | Loc.negExt => c.neg_ext
  | Loc.posM => c.pos
  | Loc.negInt => c.neg_int

def Mtotal (i : DDMInput) (loc : Loc) : ℚ := M0v i * coeffOf (coeffsV i) loc

def l2l1 (i : DDMInput) : ℚ := i.L2 / L1v i

/-- Torsional stiffness value passed to the exterior negative interpolation:
the source hardcodes 2.5 when an edge beam exists and 0 otherwise. -/
def betaTv (i : DDMInput) : ℚ := if i.has_beam then 5/2 else 0

/-- Flat plate assumption of the source: alpha_f1 = 0. -/
def alphaF1 : ℚ := 0

def csPct (i : DDMInput) (loc : Loc) : ℚ :=
  get_col_strip_percent (locKey loc) (l2l1 i) alphaF1 (betaTv i)

/-- Minimum temperature and shrinkage steel, 0.0018 b h with b, h in cm. -/
def AsMinCS (i : DDMInput) : ℚ := 9/5000 * (widthCS i * 100) * (i.h_slab * 100)

def AsMinMS (i : DDMInput) : ℚ := 9/5000 * (widthMS i * 100) * (i.h_slab * 100)

def McsV (i : DDMInput) (loc : Loc) : ℚ := Mtotal i loc * csPct i loc

def MmsV (i : DDMInput) (loc : Loc) : ℚ := Mtotal i loc * (1 - csPct i loc)

def steelCS (rt : ℚ → ℚ) (i : DDMInput) (loc : Loc) : ℚ :=
  max (solve_As rt (McsV i loc) (dEff i) (fyMPa i) (fcMPa i) (widthCS i) (9/10))
    (AsMinCS i)

def steelMS (rt : ℚ → ℚ) (i : DDMInput) (loc : Loc) : ℚ :=
  max (solve_As rt (MmsV i loc) (dEff i) (fyMPa i) (fcMPa i) (widthMS i) (9/10))
    (AsMinMS i)

def VuOneway (i : DDMInput) : ℚ :=
  let v := wuKn i * i.L2 * (L1v i / 2 - c1v i / 2 - dEff i)
  if v < 0 then 0 else v

def phiVcOneway (rt : ℚ → ℚ) (i : DDMInput) : ℚ :=
  3/4 * (17/100 * 1 * rt (fcMPa i) * i.L2 * dEff i * 1000)

def onewayStatus (rt : ℚ → ℚ) (i : DDMInput) : String :=
  if VuOneway i ≤ phiVcOneway rt i then ("PASS") else ("FAIL")

/-- Critical punching perimeter at d/2 from the column faces. -/
def b0v (i : DDMInput) : ℚ := 2 * ((c1v i + dEff i) + (c2v i + dEff i))

def VuPunch (i : DDMInput) : ℚ :=
  wuKn i * (L1v i * i.L2 - (c1v i + dEff i) * (c2v i + dEff i))

/-- Column aspect proportion beta = max(c1,c2)/min(c1,c2). -/
def betaColV (i : DDMInput) : ℚ := max (c1v i) (c2v i) / min (c1v i) (c2v i)

/-- alpha_s: 40 for an interior column, 30 otherwise (edge assumed). -/
def alphaSv (i : DDMInput) : ℚ := if spanType i = ("interior") then 40 else 30

def vc1V (rt : ℚ → ℚ) (i : DDMInput) : ℚ := 33/100 * rt (fcMPa i)

def vc2V (rt : ℚ → ℚ) (i : DDMInput) : ℚ :=
  17/100 * (1 + 2 / betaColV i) * rt (fcMPa i)

def vc3V (rt : ℚ → ℚ) (i : DDMInput) : ℚ :=
  83/1000 * (2 + alphaSv i * dEff i / b0v i) * rt (fcMPa i)

def vcMinV (rt : ℚ → ℚ) (i : DDMInput) : ℚ :=
  min (vc1V rt i) (min (vc2V rt i) (vc3V rt i))

def phiVcPunch (rt : ℚ → ℚ) (i : DDMInput) : ℚ :=
  3/4 * (vcMinV rt i * b0v i * dEff i * 1000)

def punchUtil (rt : ℚ → ℚ) (i : DDMInput) : ℚ :=
  if 0 < phiVcPunch rt i then VuPunch i / phiVcPunch rt i else 999

def punchStatVal (rt : ℚ → ℚ) (i : DDMInput) : String :=
  if VuPunch i ≤ phiVcPunch rt i then ("PASS") else ("FAIL")

/-- The record calculate_ddm returns; fields mirror the keys of the returned
dict.  Per strip location only numeric areas and moments are carried, just as
in the source. -/
structure DDMResult where
  statusTop : String
  warnings : List String
  L1 : ℚ
  L2 : ℚ
  Ln : ℚ
  w_u_kn : ℚ
  h_slab : ℚ
  d : ℚ
  h_min_req : ℚ
  status_h : String
  M0 : ℚ
  span_desc : String
  long_coeff : Loc → ℚ
  M_total : Loc → ℚ
  pct : Loc → ℚ
  M_cs : Loc → ℚ
  M_ms : Loc → ℚ
  steel_cs : Loc → ℚ
  steel_ms : Loc → ℚ
  oneway_Vu : ℚ
  oneway_phiVc : ℚ
  oneway_status : String
  punch_Vu : ℚ
  punch_phiVc : ℚ
  punch_util : ℚ
  punch_status : String

/-- calc_ddm.py, calculate_ddm: the full DDM pipeline.  rt models math.sqrt. -/
def calculate_ddm (rt : ℚ → ℚ) (i : DDMInput) : DDMResult where
  statusTop := ("success")
  warnings := ddmWarnings i
  L1 := L1v i
  L2 := i.L2
  Ln := LnV i
  w_u_kn := wuKn i
  h_slab := i.h_slab
  d := dEff i
  h_min_req := hMinReq i
  status_h := statusH i
  M0 := M0v i
  span_desc := (coeffsV i).desc
  long_coeff := coeffOf (coeffsV i)
  M_total := Mtotal i
  pct := csPct i
  M_cs := McsV i
  M_ms := MmsV i
  steel_cs := steelCS rt i
  steel_ms := steelMS rt i
  oneway_Vu := VuOneway i
  oneway_phiVc := phiVcOneway rt i
  oneway_status := onewayStatus rt i
  punch_Vu := VuPunch i
  punch_phiVc := phiVcPunch rt i
  punch_util := punchUtil rt i
  punch_status := punchStatVal rt i

/-- Every status-valued entry of the returned record. -/
def statusStrings (r : DDMResult) : List String :=
  [r.statusTop, r.status_h, r.oneway_status, r.punch_status]

/-- Inputs of calculate_efm (calc_efm.py): column sizes in cm, spans and slab
depth in m, storey heights in m, concrete strength in ksc. -/
structure EFMInput where
  c1_cm : ℚ
  c2_cm : ℚ
  L1 : ℚ
  L2 : ℚ
  h_slab : ℚ
  h_up : ℚ
  h_lo : ℚ
  fc : ℚ
deriving DecidableEq

/-- Concrete modulus in kPa: 15100 sqrt(fc) ksc times 98.0665.  rt models the
float power 0.5 of the source. -/
def EcKPa (rt : ℚ → ℚ) (i : EFMInput) : ℚ := 15100 * rt i.fc * (980665/10000)

/-- Gross slab inertia over the width L2. -/
def IsGross (i : EFMInput) : ℚ := i.L2 * i.h_slab^3 / 12

/-- Slab stiffness Ks = 4 E I / L1. -/
def KsV (rt : ℚ → ℚ) (i : EFMInput) : ℚ := 4 * EcKPa rt i * IsGross i / i.L1

def IcV (i : EFMInput) : ℚ := (i.c2_cm/100) * (i.c1_cm/100)^3 / 12

def KcUp (rt : ℚ → ℚ) (i : EFMInput) : ℚ :=
  if 0 < i.h_up then 4 * EcKPa rt i * IcV i / i.h_up else 0

def KcLo (rt : ℚ → ℚ) (i : EFMInput) : ℚ :=
  if 0 < i.h_lo then 4 * EcKPa rt i * IcV i / i.h_lo else 0

def SumKcV (rt : ℚ → ℚ) (i : EFMInput) : ℚ := KcUp rt i + KcLo rt i

/-- Torsion constant C of the transverse member, with x the slab depth and y
the column dimension c1, exactly as the source assigns them. -/
def CtorV (i : EFMInput) : ℚ :=
  (1 - 63/100 * (i.h_slab / (i.c1_cm/100))) * i.h_slab^3 * (i.c1_cm/100) / 3

/-- Torsional member stiffness, two arms, with the source guard replacing a
zero denominator by 0.001. -/
def KtV (rt : ℚ → ℚ) (i : EFMInput) : ℚ :=
  let term1 := 9 * EcKPa rt i * CtorV i
  let term2 := i.L2 * (1 - (i.c2_cm/100) / i.L2)^3
  let term2 := if term2 = 0 then 1/1000 else term2
  (term1 / term2) * 2

/-- Equivalent column stiffness: the series spring combination, or 0 when
either term is not positive. -/
def KecV (rt : ℚ → ℚ) (i : EFMInput) : ℚ :=
  if 0 < SumKcV rt i ∧ 0 < KtV rt i
  then 1 / (1 / SumKcV rt i + 1 / KtV rt i) else 0

def dfSlabV (rt : ℚ → ℚ) (i : EFMInput) : ℚ :=
  if 0 < KsV rt i + KecV rt i then KsV rt i / (KsV rt i + KecV rt i) else 0

def dfColV (rt : ℚ → ℚ) (i : EFMInput) : ℚ :=
  if 0 < KsV rt i + KecV rt i then KecV rt i / (KsV rt i + KecV rt i) else 0

structure EFMResult where
  Ic : ℚ
  Is_g : ℚ
  Ec_kPa : ℚ
  Kc_up : ℚ
  Kc_lo : ℚ
  Sum_Kc : ℚ
  Ctors : ℚ
  Kt : ℚ
  Kec : ℚ
  Ks : ℚ
  df_slab : ℚ
  df_col : ℚ

/-- calc_efm.py, calculate_efm: the EFM stiffness pipeline. -/
def calculate_efm (rt : ℚ → ℚ) (i : EFMInput) : EFMResult where
  Ic := IcV i
  Is_g := IsGross i
  Ec_kPa := EcKPa rt i
  Kc_up := KcUp rt i
  Kc_lo := KcLo rt i
  Sum_Kc := SumKcV rt i
  Ctors := CtorV i
  Kt := KtV rt i
  Kec := KecV rt i
  Ks := KsV rt i
  df_slab := dfSlabV rt i
  df_col := dfColV rt i

/-- Inputs of the DesignCriteriaValidator of app.py. -/
structure ValidatorInput where
  L1 : ℚ
  L2 : ℚ
  L1_l : ℚ
  L1_r : ℚ
  L2_t : ℚ
  L2_b : ℚ
  ll : ℚ
  dl : ℚ
  cant_has_left : Bool
  cant_L_left : ℚ
  cant_has_right : Bool
  cant_L_right : ℚ
deriving DecidableEq

def msgAspectFail : String := "Panel proportion: Long/Short above 2.0 (ACI Limit)"

def msgAspectPass : String := "Panel proportion: within 2.0 (Pass)"

def msgLoadFail : String := "Load proportion: LL/DL above 2.0"

def msgLoadPass : String := "Load proportion: within 2.0 (Pass)"

def msgCantLeft : String := "Cantilever (Left): length is large relative to span"

def msgCantRight : String := "Cantilever (Right): length is large relative to span"

def msgSpansNote : String := "DDM requires at least 3 continuous spans."

/-- Long over short panel side, 0 when the short side is not positive. -/
def aspectV (i : ValidatorInput) : ℚ :=
  if 0 < min i.L1 i.L2 then max i.L1 i.L2 / min i.L1 i.L2 else 0

/-- Live over dead load, 0 when the dead load is not positive. -/
def loadAspectV (i : ValidatorInput) : ℚ := if 0 < i.dl then i.ll / i.dl else 0

/-- app.py, DesignCriteriaValidator.check_ddm: overall flag plus the reasons
list, in source order (span check, load check, cantilever advisories, final
note). -/
def check_ddm (i : ValidatorInput) : Bool × List String :=
  (if 2 < aspectV i ∨ 2 < loadAspectV i then false else true,
    (if 2 < aspectV i then [msgAspectFail] else [msgAspectPass])
    ++ (if 2 < loadAspectV i then [msgLoadFail] else [msgLoadPass])
    ++ (if i.cant_has_left ∧ i.L1/3 < i.cant_L_left then [msgCantLeft] else [])
    ++ (if i.cant_has_right ∧ i.L1/3 < i.cant_L_right then [msgCantRight] else [])
    ++ [msgSpansNote])

/-- The torsional stiffness formula the spec prescribes for the exterior
negative split, stated from its words for comparison with the constant the
code uses: with edge beam cross-section x, y (x the smaller of width and
depth), C = (1 - 0.63 x/y) x^3 y / 3, Is = L2 h^3 / 12, beta_t = C / (2 Is). -/
def beta_t_spec (bw bd h_slab L2 : ℚ) : ℚ :=
  let x := min bw bd
  let y := max bw bd
  let c := (1 - 63/100 * (x/y)) * x^3 * y / 3
  let isl := L2 * h_slab^3 / 12
  c / (2 * isl)

/-- A square-root oracle that is never consulted on the paths of interest. -/
def rt0 : ℚ → ℚ := fun _ => 0

/-- A square-root oracle that is exact at 400. -/
def rt20 : ℚ → ℚ := fun _ => 20

/-- 6 m by 6 m interior panel, 20 cm slab, 50 cm columns, fc 240 ksc,
fy 4000 ksc, separated loads 100 / 200 kg per m2. -/
def stdInput : DDMInput :=
  ⟨6, 6, 6, 1/5, 50, 50, false, 240, 4000, 100, 200, 0⟩

/-- Same panel under an enormous simple-mode load, driving every flexural
discriminant negative. -/
def bigLoadInput : DDMInput :=
  ⟨6, 6, 6, 1/5, 50, 50, false, 240, 4000, 0, 0, 1000000⟩

/-- Same panel with a 250 cm column, so that the geometric clear span falls
below the 0.65 L1 floor. -/
def clampInput : DDMInput :=
  ⟨6, 6, 6, 1/5, 250, 50, false, 240, 4000, 100, 100, 0⟩

/-- Edge panel (left span absent) with an edge beam. -/
def edgeInput : DDMInput :=
  ⟨0, 6, 6, 1/5, 50, 50, true, 240, 4000, 100, 200, 0⟩

/-- A degenerate input whose factored load is negative (dead load entry more
negative than the slab self weight), so every design moment is nonpositive and
the minimum-steel floor governs at every section. -/
def negInput : DDMInput :=
  ⟨6, 6, 6, 1/5, 50, 50, false, 240, 4000, -500, 0, 0⟩

/-- Validator input whose successive spans (3 m and 1 m) differ by far more
than a third, while both simple checks pass. -/
def spanDiffInput : ValidatorInput :=
  ⟨4, 4, 3, 1, 2, 2, 100, 200, false, 0, false, 0⟩

/-- Standard EFM joint: 50 cm columns, 6 m spans, 20 cm slab, 3 m storeys,
fc 400 ksc (whose square root is exactly 20). -/
def efmStd : EFMInput := ⟨50, 50, 6, 6, 1/5, 3, 3, 400⟩

/-- EFM joint with both storey heights zero, so the column stiffness sum is
zero. -/
def efmZero : EFMInput := ⟨50, 50, 6, 6, 1/5, 0, 0, 400⟩

/-- C1: the exterior-negative column-strip share is a nested, clamped linear
interpolation: with alpha_f1 = 0, the share is 1 at beta_t = 0 for every
l2/l1; it is exactly 0.875 at beta_t = 1.25 with l2/l1 = 1; for beta_t at or
beyond 2.5 it equals the 2.5-endpoint value, which is 0.75 at l2/l1 at or
below 1; and both directions of the outer interpolation are clamped at their
endpoints. -/
theorem gcsp_neg_ext_eq (r a b : ℚ) :
    get_col_strip_percent ("neg_ext") r a b
      = (linear_interp b 0 100 (5/2)
          (linear_interp a 0 75 1 (linear_interp r (1/2) 90 2 45))) / 100 := by
  unfold get_col_strip_percent
  rw [if_neg (by decide), if_pos rfl]

theorem C1_exterior_negative_interp :
    (∀ r : ℚ, get_col_strip_percent ("neg_ext") r 0 0 = 1)
    ∧ get_col_strip_percent ("neg_ext") 1 0 (5/4) = 7/8
    ∧ (∀ r b : ℚ, 5/2 ≤ b → r ≤ 1 →
        get_col_strip_percent ("neg_ext") r 0 b = 3/4)
    ∧ (∀ r b : ℚ, 5/2 ≤ b →
        get_col_strip_percent ("neg_ext") r 0 b
          = get_col_strip_percent ("neg_ext") r 0 (5/2))
    ∧ (∀ r b : ℚ, b ≤ 0 →
        get_col_strip_percent ("neg_ext") r 0 b
          = get_col_strip_percent ("neg_ext") r 0 0) := by
  refine ⟨?_, ?_, ?_, ?_, ?_⟩
  · intro r
    rw [gcsp_neg_ext_eq]
    norm_num [linear_interp]
  · rw [gcsp_neg_ext_eq]
    norm_num [linear_interp]
  · intro r b hb hr
    rw [gcsp_neg_ext_eq]
    simp only [linear_interp]
    rw [if_neg (show ¬ b ≤ (0:ℚ) by linarith), if_pos hb]
    norm_num
  · intro r b hb
    rw [gcsp_neg_ext_eq, gcsp_neg_ext_eq]
    simp only [linear_interp]
    rw [if_neg (show ¬ b ≤ (0:ℚ) by linarith), if_pos hb]
    norm_num
  · intro r b hb
    rw [gcsp_neg_ext_eq, gcsp_neg_ext_eq]
    simp only [linear_interp]
    rw [if_pos hb]
    norm_num

/-- Witness for C1 at concrete inputs. -/
theorem C1_exterior_negative_interp_witness :
    get_col_strip_percent ("neg_ext") 2 0 0 = 1
    ∧ get_col_strip_percent ("neg_ext") 1 0 (5/4) = 7/8
    ∧ get_col_strip_percent ("neg_ext") (3/4) 0 3 = 3/4
    ∧ get_col_strip_percent ("neg_ext") (3/4) 0 7
        = get_col_strip_percent ("neg_ext") (3/4) 0 (5/2)
    ∧ get_col_strip_percent ("neg_ext") (3/4) 0 (-1)
        = get_col_strip_percent ("neg_ext") (3/4) 0 0 :=
  ⟨C1_exterior_negative_interp.1 2,
   C1_exterior_negative_interp.2.1,
   C1_exterior_negative_interp.2.2.1 (3/4) 3 (by norm_num) (by norm_num),
   C1_exterior_negative_interp.2.2.2.1 (3/4) 7 (by norm_num),
   C1_exterior_negative_interp.2.2.2.2 (3/4) (-1) (by norm_num)⟩

/-- C10: any location label other than neg_int, neg_ext and pos makes
get_col_strip_percent return the default 0.75, whatever the numeric
arguments. -/
theorem C10_unknown_location_default :
    ∀ (location : String) (r a b : ℚ),
      location ≠ ("neg_int") → location ≠ ("neg_ext") → location ≠ ("pos") →
      get_col_strip_percent location r a b = 3/4 := by
  intro loc r a b h1 h2 h3
  simp [get_col_strip_percent, h1, h2, h3]

/-- Witness for C10: a misspelled label yields 0.75. -/
theorem C10_unknown_location_default_witness :
    get_col_strip_percent ("neg_extt") 1 0 (5/2) = 3/4 :=
  C10_unknown_location_default ("neg_extt") 1 0 (5/2)
    (by decide) (by decide) (by decide)

/-- C2 (amended): the torsional stiffness value used for the exterior
negative split is the hardcoded constant 2.5 whenever an edge beam exists and
0 otherwise; the pipeline feeds exactly that constant into the interpolation.
It is not computed from the edge-beam cross-section. -/
theorem C2_beta_t_hardcoded :
    ∀ (rt : ℚ → ℚ) (i : DDMInput),
      betaTv i = (if i.has_beam then 5/2 else 0)
      ∧ (calculate_ddm rt i).pct Loc.negExt
          = get_col_strip_percent ("neg_ext") (l2l1 i) alphaF1 (betaTv i) :=
  fun _ _ => ⟨rfl, rfl⟩

/-- C2 counterexample: for a concrete edge-beam geometry (beam 30 by 50 cm,
slab 20 cm, L2 = 6 m) the spec formula C / (2 Is) gives 0.349875, while the
code uses 2.5 regardless of the cross-section. -/
theorem C2_counterexample :
    edgeInput.has_beam = true
    ∧ betaTv edgeInput = 5/2
    ∧ beta_t_spec (3/10) (1/2) edgeInput.h_slab edgeInput.L2 = 349875/1000000
    ∧ beta_t_spec (3/10) (1/2) edgeInput.h_slab edgeInput.L2 ≠ betaTv edgeInput := by
  refine ⟨rfl, rfl, ?_, ?_⟩ <;> norm_num [beta_t_spec, betaTv, edgeInput]

/-- Witness for C2 at the concrete edge-beam input. -/
theorem C2_beta_t_hardcoded_witness :
    betaTv edgeInput = (if edgeInput.has_beam then 5/2 else 0)
    ∧ (calculate_ddm rt0 edgeInput).pct Loc.negExt
        = get_col_strip_percent ("neg_ext") (l2l1 edgeInput) alphaF1
            (betaTv edgeInput) :=
  C2_beta_t_hardcoded rt0 edgeInput

/-- C8: for every moment component the column-strip percentage lies in [0, 1],
and the column-strip and middle-strip moments of a component sum exactly to
that component's total moment. -/
theorem C8_strip_split_invariant :
    ∀ (rt : ℚ → ℚ) (i : DDMInput) (loc : Loc),
      0 ≤ (calculate_ddm rt i).pct loc
      ∧ (calculate_ddm rt i).pct loc ≤ 1
      ∧ (calculate_ddm rt i).M_cs loc + (calculate_ddm rt i).M_ms loc
          = (calculate_ddm rt i).M_total loc := by
  intro rt i loc
  refine ⟨?_, ?_, ?_⟩
  · show 0 ≤ csPct i loc
    cases loc <;> cases h : i.has_beam <;>
      (simp [csPct, locKey, betaTv, alphaF1, h, get_col_strip_percent,
        linear_interp]
       try norm_num)
  · show csPct i loc ≤ 1
    cases loc <;> cases h : i.has_beam <;>
      (simp [csPct, locKey, betaTv, alphaF1, h, get_col_strip_percent,
        linear_interp]
       try norm_num)
  · show McsV i loc + MmsV i loc = Mtotal i loc
    simp only [McsV, MmsV]
    ring

/-- Witness for C8 at the standard input and the exterior negative
component. -/
theorem C8_strip_split_invariant_witness :
    0 ≤ (calculate_ddm rt0 stdInput).pct Loc.negExt
    ∧ (calculate_ddm rt0 stdInput).pct Loc.negExt ≤ 1
    ∧ (calculate_ddm rt0 stdInput).M_cs Loc.negExt
        + (calculate_ddm rt0 stdInput).M_ms Loc.negExt
        = (calculate_ddm rt0 stdInput).M_total Loc.negExt :=
  C8_strip_split_invariant rt0 stdInput Loc.negExt

/-- C3 (amended): a negative discriminant in the flexural quadratic makes
solve_As return the sentinel 9999.0 (never an exception), and the pipeline
still carries a numeric steel requirement, the max of the solve result and
the minimum steel, for every strip of every location. -/
theorem C3_sentinel_on_negative_radicand :
    (∀ (rt : ℚ → ℚ) (mu d fy fc b phi : ℚ), 0 < mu →
      solveAsDisc mu d fy fc b phi < 0 →
      solve_As rt mu d fy fc b phi = 9999)
    ∧ (∀ (rt : ℚ → ℚ) (i : DDMInput) (loc : Loc),
        (calculate_ddm rt i).steel_cs loc
          = max (solve_As rt (McsV i loc) (dEff i) (fyMPa i) (fcMPa i)
              (widthCS i) (9/10)) (AsMinCS i)
        ∧ (calculate_ddm rt i).steel_ms loc
          = max (solve_As rt (MmsV i loc) (dEff i) (fyMPa i) (fcMPa i)
              (widthMS i) (9/10)) (AsMinMS i)) := by
  constructor
  · intro rt mu d fy fc b phi hmu hdisc
    unfold solveAsDisc at hdisc
    simp only [solve_As]
    rw [if_neg (by linarith), if_pos hdisc]
  · intro rt i loc
    exact ⟨rfl, rfl⟩

/-- Witness for C3 at a concrete failing section and a concrete pipeline
input. -/
theorem C3_sentinel_on_negative_radicand_witness :
    solve_As rt0 1000 (1/10) 400 20 1 (9/10) = 9999
    ∧ (calculate_ddm rt0 stdInput).steel_cs Loc.posM
        = max (solve_As rt0 (McsV stdInput Loc.posM) (dEff stdInput)
            (fyMPa stdInput) (fcMPa stdInput) (widthCS stdInput) (9/10))
          (AsMinCS stdInput) :=
  ⟨C3_sentinel_on_negative_radicand.1 rt0 1000 (1/10) 400 20 1 (9/10)
      (by norm_num) (by norm_num [solveAsDisc]),
   (C3_sentinel_on_negative_radicand.2 rt0 stdInput Loc.posM).1⟩

/-- C3 counterexample: under an enormous load every flexural discriminant is
negative, yet the returned steel requirement for the interior negative column
strip is the sentinel 9999.0 rather than a Fail status with zero steel. -/
theorem C3_counterexample :
    solveAsDisc (McsV bigLoadInput Loc.negInt) (dEff bigLoadInput)
        (fyMPa bigLoadInput) (fcMPa bigLoadInput) (widthCS bigLoadInput)
        (9/10) < 0
    ∧ (calculate_ddm rt0 bigLoadInput).steel_cs Loc.negInt = 9999
    ∧ (9999 : ℚ) ≠ 0 := by
  refine ⟨?_, ?_, by norm_num⟩ <;>
    norm_num [solveAsDisc, McsV, Mtotal, M0v, coeffsV, coeffOf, csPct,
      get_longitudinal_coeffs, spanType, get_col_strip_percent, linear_interp,
      locKey, betaTv, alphaF1, l2l1, wuKn, simpleLoadMode, totalDL, LnV, L1v,
      c1v, dEff, widthCS, fyMPa, fcMPa, kscToMPa, gAcc, bigLoadInput,
      calculate_ddm, steelCS, solve_As, AsMinCS]

/-- C4 (amended): the punching check computes the concrete stress limit as
the minimum of the three ACI limits in SI form, 0.33 sqrt(fc), 0.17 (1 + 2
over beta) sqrt(fc) and 0.083 (2 + alpha_s d over b0) sqrt(fc) with fc in
MPa, alpha_s is 40 for an interior column and 30 otherwise, phi Vc = 0.75 vc
b0 d, and an exceedance is reported through the FAIL status string, never an
exception; the result record is always produced. -/
theorem C4_punching_three_limits :
    ∀ (rt : ℚ → ℚ) (i : DDMInput),
      (calculate_ddm rt i).punch_phiVc
        = 3/4 * (min (33/100 * rt (fcMPa i))
            (min (17/100 * (1 + 2 / betaColV i) * rt (fcMPa i))
              (83/1000 * (2 + alphaSv i * dEff i / b0v i) * rt (fcMPa i)))
            * b0v i * dEff i * 1000)
      ∧ alphaSv i = (if spanType i = ("interior") then 40 else 30)
      ∧ ((calculate_ddm rt i).punch_status = ("FAIL")
          ↔ (calculate_ddm rt i).punch_phiVc < (calculate_ddm rt i).punch_Vu)
      ∧ (calculate_ddm rt i).statusTop = ("success") := by
  intro rt i
  refine ⟨rfl, rfl, ?_, rfl⟩
  show punchStatVal rt i = ("FAIL") ↔ phiVcPunch rt i < VuPunch i
  unfold punchStatVal
  split_ifs with h
  · simp only [not_lt.mpr h, iff_false]
    decide
  · simp only [not_le] at h
    simp only [h, iff_true]

/-- Witness for C4 at the standard interior input. -/
theorem C4_punching_three_limits_witness :
    (calculate_ddm rt0 stdInput).punch_phiVc
      = 3/4 * (min (33/100 * rt0 (fcMPa stdInput))
          (min (17/100 * (1 + 2 / betaColV stdInput) * rt0 (fcMPa stdInput))
            (83/1000 * (2 + alphaSv stdInput * dEff stdInput / b0v stdInput)
              * rt0 (fcMPa stdInput)))
          * b0v stdInput * dEff stdInput * 1000)
    ∧ alphaSv stdInput = (if spanType stdInput = ("interior") then 40 else 30)
    ∧ ((calculate_ddm rt0 stdInput).punch_status = ("FAIL")
        ↔ (calculate_ddm rt0 stdInput).punch_phiVc
            < (calculate_ddm rt0 stdInput).punch_Vu)
    ∧ (calculate_ddm rt0 stdInput).statusTop = ("success") :=
  C4_punching_three_limits rt0 stdInput

/-- C4 counterexample: at fc = 240 ksc the code limit 0.33 sqrt(fc in MPa)
differs from the claimed 1.06 sqrt(fc in ksc) (converted to MPa): the claimed
ksc-unit coefficients are not the ones the code evaluates. -/
theorem C4_counterexample :
    ¬ ((33/100 : ℝ) * Real.sqrt ((fcMPa stdInput : ℚ) : ℝ)
        = (106/100 : ℝ) * Real.sqrt ((stdInput.fc : ℚ) : ℝ)
            * ((kscToMPa : ℚ) : ℝ)) := by
  intro h
  have hfc : ((fcMPa stdInput : ℚ) : ℝ) = 240 * (980665/10000000 : ℝ) := by
    norm_num [fcMPa, stdInput, kscToMPa]
  have hf2 : ((stdInput.fc : ℚ) : ℝ) = (240 : ℝ) := by
    norm_num [stdInput]
  have hk : ((kscToMPa : ℚ) : ℝ) = (980665/10000000 : ℝ) := by
    norm_num [kscToMPa]
  rw [hfc, hf2, hk] at h
  have hsq := congrArg (fun x : ℝ => x^2) h
  simp only [mul_pow] at hsq
  rw [Real.sq_sqrt (by norm_num), Real.sq_sqrt (by norm_num)] at hsq
  norm_num at hsq

/-- C5 (amended): for positive L1 the static moment uses
M0 = wu L2 Ln^2 / 8 with Ln clamped to max(Ln actual, 0.65 L1); no note about
the clamp is ever emitted: the warnings list only ever carries the span
proportion and live load messages. -/
theorem C5_static_moment_clamp :
    ∀ (rt : ℚ → ℚ) (i : DDMInput), 0 < L1v i →
      (calculate_ddm rt i).Ln = max (L1v i - c1v i) (13/20 * L1v i)
      ∧ (calculate_ddm rt i).M0
          = wuKn i * i.L2 * ((calculate_ddm rt i).Ln)^2 / 8
      ∧ (∀ w ∈ (calculate_ddm rt i).warnings,
          w = msgHighAspect ∨ w = msgHighLive) := by
  intro rt i hL1
  refine ⟨rfl, rfl, ?_⟩
  intro w hw
  show w = msgHighAspect ∨ w = msgHighLive
  have : w ∈ ddmWarnings i := hw
  unfold ddmWarnings at this
  rcases List.mem_append.mp this with h | h
  · left
    split_ifs at h <;> simp_all
  · right
    split_ifs at h <;> simp_all

/-- Witness for C5 at the clamped concrete input. -/
theorem C5_static_moment_clamp_witness :
    (calculate_ddm rt0 clampInput).Ln
        = max (L1v clampInput - c1v clampInput) (13/20 * L1v clampInput)
    ∧ (calculate_ddm rt0 clampInput).M0
        = wuKn clampInput * clampInput.L2
            * ((calculate_ddm rt0 clampInput).Ln)^2 / 8
    ∧ (∀ w ∈ (calculate_ddm rt0 clampInput).warnings,
        w = msgHighAspect ∨ w = msgHighLive) :=
  C5_static_moment_clamp rt0 clampInput (by norm_num [L1v, clampInput])

/-- C5 counterexample: with a 250 cm column on a 6 m span the actual clear
span 3.5 m falls below the floor 3.9 m, the clamp engages, and the warnings
list is empty: no note is emitted. -/
theorem C5_counterexample :
    L1v clampInput - c1v clampInput < 13/20 * L1v clampInput
    ∧ (calculate_ddm rt0 clampInput).Ln = 39/10
    ∧ (calculate_ddm rt0 clampInput).warnings = [] := by
  refine ⟨by norm_num [L1v, c1v, clampInput], ?_, ?_⟩
  · show LnV clampInput = 39/10
    norm_num [LnV, L1v, c1v, clampInput]
  · show ddmWarnings clampInput = []
    norm_num [ddmWarnings, L1v, clampInput, simpleLoadMode, totalDL]

/-- C6 (amended): the DDM applicability validator evaluates exactly two
independent checks, panel span proportion at most 2.0 and live over dead at
most 2.0; a single violation makes the overall flag false, each check is
always evaluated and listed individually regardless of the other, and there
is no successive-span check. -/
theorem C6_two_checks_independent :
    ∀ i : ValidatorInput,
      ((check_ddm i).1 = false ↔ (2 < aspectV i ∨ 2 < loadAspectV i))
      ∧ (msgAspectFail ∈ (check_ddm i).2 ↔ 2 < aspectV i)
      ∧ (msgAspectPass ∈ (check_ddm i).2 ↔ ¬ 2 < aspectV i)
      ∧ (msgLoadFail ∈ (check_ddm i).2 ↔ 2 < loadAspectV i)
      ∧ (msgLoadPass ∈ (check_ddm i).2 ↔ ¬ 2 < loadAspectV i) := by
  intro i
  unfold check_ddm
  refine ⟨?_, ?_, ?_, ?_, ?_⟩ <;>
    (split_ifs <;>
      simp_all [msgAspectFail, msgAspectPass, msgLoadFail, msgLoadPass,
        msgCantLeft, msgCantRight, msgSpansNote])

/-- Witness for C6 at the concrete unequal-span input. -/
theorem C6_two_checks_independent_witness :
    ((check_ddm spanDiffInput).1 = false
        ↔ (2 < aspectV spanDiffInput ∨ 2 < loadAspectV spanDiffInput))
    ∧ (msgAspectFail ∈ (check_ddm spanDiffInput).2
        ↔ 2 < aspectV spanDiffInput)
    ∧ (msgAspectPass ∈ (check_ddm spanDiffInput).2
        ↔ ¬ 2 < aspectV spanDiffInput)
    ∧ (msgLoadFail ∈ (check_ddm spanDiffInput).2
        ↔ 2 < loadAspectV spanDiffInput)
    ∧ (msgLoadPass ∈ (check_ddm spanDiffInput).2
        ↔ ¬ 2 < loadAspectV spanDiffInput) :=
  C6_two_checks_independent spanDiffInput

/-- C6 counterexample: successive spans of 3 m and 1 m (both present) differ
by two thirds, far beyond a third, yet the validator reports the overall
status as valid: no successive-span check exists. -/
theorem C6_counterexample :
    0 < spanDiffInput.L1_l
    ∧ 0 < spanDiffInput.L1_r
    ∧ 1/3 < (spanDiffInput.L1_l - spanDiffInput.L1_r) / spanDiffInput.L1_l
    ∧ (check_ddm spanDiffInput).1 = true := by
  refine ⟨by norm_num [spanDiffInput], by norm_num [spanDiffInput],
    by norm_num [spanDiffInput], ?_⟩
  norm_num [check_ddm, aspectV, loadAspectV, spanDiffInput]

/-- C7 (amended): whenever the solve result for a strip falls at or below the
minimum temperature and shrinkage steel, the returned area is exactly
0.0018 b h (b, h in cm); the result record carries no per-section flexural
status at all, in particular no MinSteel status string anywhere. -/
theorem C7_min_steel_floor :
    ∀ (rt : ℚ → ℚ) (i : DDMInput) (loc : Loc),
      (solve_As rt (McsV i loc) (dEff i) (fyMPa i) (fcMPa i) (widthCS i)
          (9/10) ≤ AsMinCS i →
        (calculate_ddm rt i).steel_cs loc = AsMinCS i)
      ∧ (solve_As rt (MmsV i loc) (dEff i) (fyMPa i) (fcMPa i) (widthMS i)
          (9/10) ≤ AsMinMS i →
        (calculate_ddm rt i).steel_ms loc = AsMinMS i)
      ∧ AsMinCS i = 9/5000 * (widthCS i * 100) * (i.h_slab * 100)
      ∧ ("MinSteel") ∉ statusStrings (calculate_ddm rt i) := by
  intro rt i loc
  refine ⟨fun h => max_eq_right h, fun h => max_eq_right h, rfl, ?_⟩
  show ("MinSteel")
      ∉ [("success"), statusH i, onewayStatus rt i, punchStatVal rt i]
  unfold statusH onewayStatus punchStatVal
  split_ifs <;> decide

/-- Witness for C7: a nonpositive-moment input where the solve result is 0,
below the 10.8 cm2 floor, and the returned area is exactly the floor. -/
theorem C7_min_steel_floor_witness :
    (solve_As rt0 (McsV negInput Loc.posM) (dEff negInput) (fyMPa negInput)
        (fcMPa negInput) (widthCS negInput) (9/10) ≤ AsMinCS negInput
      → (calculate_ddm rt0 negInput).steel_cs Loc.posM = AsMinCS negInput)
    ∧ (calculate_ddm rt0 negInput).steel_cs Loc.posM = AsMinCS negInput :=
  ⟨(C7_min_steel_floor rt0 negInput Loc.posM).1,
   (C7_min_steel_floor rt0 negInput Loc.posM).1 (by
    simp [solve_As, McsV, Mtotal, M0v, coeffsV, coeffOf, csPct,
      get_longitudinal_coeffs, spanType, get_col_strip_percent, linear_interp,
      locKey, betaTv, alphaF1, l2l1, wuKn, simpleLoadMode, totalDL, LnV, L1v,
      c1v, dEff, widthCS, fyMPa, fcMPa, kscToMPa, gAcc, AsMinCS, negInput]
    norm_num)⟩

/-- C7 counterexample: at the concrete nonpositive-moment input the computed
steel falls below the minimum and the floor is returned, but no status entry
of the result record equals MinSteel: the record records no per-section
flexural status. -/
theorem C7_counterexample :
    solve_As rt0 (McsV negInput Loc.posM) (dEff negInput) (fyMPa negInput)
        (fcMPa negInput) (widthCS negInput) (9/10) < AsMinCS negInput
    ∧ (calculate_ddm rt0 negInput).steel_cs Loc.posM = AsMinCS negInput
    ∧ ("MinSteel") ∉ statusStrings (calculate_ddm rt0 negInput) := by
  refine ⟨?_, ?_, ?_⟩
  · simp [solve_As, McsV, Mtotal, M0v, coeffsV, coeffOf, csPct,
      get_longitudinal_coeffs, spanType, get_col_strip_percent, linear_interp,
      locKey, betaTv, alphaF1, l2l1, wuKn, simpleLoadMode, totalDL, LnV, L1v,
      c1v, dEff, widthCS, fyMPa, fcMPa, kscToMPa, gAcc, AsMinCS, negInput]
    norm_num
  · show steelCS rt0 negInput Loc.posM = AsMinCS negInput
    unfold steelCS
    refine max_eq_right (le_of_lt ?_)
    simp [solve_As, McsV, Mtotal, M0v, coeffsV, coeffOf, csPct,
      get_longitudinal_coeffs, spanType, get_col_strip_percent, linear_interp,
      locKey, betaTv, alphaF1, l2l1, wuKn, simpleLoadMode, totalDL, LnV, L1v,
      c1v, dEff, widthCS, fyMPa, fcMPa, kscToMPa, gAcc, AsMinCS, negInput]
    norm_num
  · show ("MinSteel")
        ∉ [("success"), statusH negInput, onewayStatus rt0 negInput,
            punchStatVal rt0 negInput]
    unfold statusH onewayStatus punchStatVal
    split_ifs <;> decide

/-- C9: the equivalent column stiffness is the series spring combination
1/Kec = 1/Sum Kc + 1/Kt, Kec is 0 whenever Sum Kc or Kt is zero (no division
error), and the joint distribution factors are Ks/(Ks + Kec) and
Kec/(Ks + Kec). -/
theorem C9_kec_series_and_df :
    ∀ (rt : ℚ → ℚ) (i : EFMInput),
      ((calculate_efm rt i).Sum_Kc = 0 ∨ (calculate_efm rt i).Kt = 0 →
        (calculate_efm rt i).Kec = 0)
      ∧ (0 < (calculate_efm rt i).Sum_Kc → 0 < (calculate_efm rt i).Kt →
          1 / (calculate_efm rt i).Kec
            = 1 / (calculate_efm rt i).Sum_Kc + 1 / (calculate_efm rt i).Kt)
      ∧ (0 < (calculate_efm rt i).Ks + (calculate_efm rt i).Kec →
          (calculate_efm rt i).df_slab
            = (calculate_efm rt i).Ks
                / ((calculate_efm rt i).Ks + (calculate_efm rt i).Kec)
          ∧ (calculate_efm rt i).df_col
            = (calculate_efm rt i).Kec
                / ((calculate_efm rt i).Ks + (calculate_efm rt i).Kec)) := by
  intro rt i
  refine ⟨?_, ?_, ?_⟩
  · intro h
    show KecV rt i = 0
    unfold KecV
    rcases h with h | h <;>
      (rw [if_neg]
       intro hc
       rcases hc with ⟨h1, h2⟩)
    · exact absurd h (by simpa using ne_of_gt (show (0:ℚ) < SumKcV rt i from h1))
    · exact absurd h (by simpa using ne_of_gt (show (0:ℚ) < KtV rt i from h2))
  · intro h1 h2
    show 1 / KecV rt i = 1 / SumKcV rt i + 1 / KtV rt i
    unfold KecV
    rw [if_pos ⟨h1, h2⟩, one_div_one_div]
  · intro h
    have h' : 0 < KsV rt i + KecV rt i := h
    constructor
    · show dfSlabV rt i = KsV rt i / (KsV rt i + KecV rt i)
      unfold dfSlabV
      rw [if_pos h']
    · show dfColV rt i = KecV rt i / (KsV rt i + KecV rt i)
      unfold dfColV
      rw [if_pos h']

/-- Witness for C9: the zero-guard at a joint with no columns, and the series
combination plus distribution factors at a standard joint with fc = 400 ksc
(exact square root 20). -/
theorem C9_kec_series_and_df_witness :
    (calculate_efm rt20 efmZero).Kec = 0
    ∧ 1 / (calculate_efm rt20 efmStd).Kec
        = 1 / (calculate_efm rt20 efmStd).Sum_Kc
            + 1 / (calculate_efm rt20 efmStd).Kt
    ∧ (calculate_efm rt20 efmStd).df_slab
        = (calculate_efm rt20 efmStd).Ks
            / ((calculate_efm rt20 efmStd).Ks + (calculate_efm rt20 efmStd).Kec) :=
  ⟨(C9_kec_series_and_df rt20 efmZero).1
      (Or.inl (by norm_num [calculate_efm, SumKcV, KcUp, KcLo, efmZero])),
   (C9_kec_series_and_df rt20 efmStd).2.1
      (by norm_num [calculate_efm, SumKcV, KcUp, KcLo, IcV, EcKPa, efmStd, rt20])
      (by norm_num [calculate_efm, KtV, CtorV, EcKPa, efmStd, rt20]),
   ((C9_kec_series_and_df rt20 efmStd).2.2
      (by
        have hks : 0 < KsV rt20 efmStd := by
          norm_num [KsV, EcKPa, IsGross, efmStd, rt20]
        have hkec : 0 ≤ KecV rt20 efmStd := by
          unfold KecV
          split_ifs with hc
          · have h1 := hc.1
            have h2 := hc.2
            positivity
          · exact le_refl 0
        show 0 < KsV rt20 efmStd + KecV rt20 efmStd
        linarith)).1⟩

end Flatslab
